import Mathlib

/-!
Shallow embedding of the credential-rotation / client-pool core of
tstromberg/shhgit (`core/session.go`).

Modelling conventions:
- `time.Time` is modelled as `Int` (Unix nanoseconds); `t.After(u)` is `u < t`.
- A Go buffered channel is modelled by the list of its buffered elements
  (front of the list = next element received); its capacity is tracked
  separately where a claim is about capacity.
- The underlying `*github.Client` of a `GitHubClientWrapper` is opaque to
  every claim and is not modelled; the wrapper keeps its `Token` and
  `RateLimitedUntil` fields.
- The remote validation call `client.Users.Get(ctx, "")` performed per token
  is modelled by a parameter `validate : String → ValidationResult` giving,
  for each token, whether the call succeeded, failed with a
  `*github.ErrorResponse`, or failed with any other error.
-/

/-- Model of `GitHubClientWrapper` (Token, RateLimitedUntil); the opaque
`*github.Client` field is not modelled. -/
structure GitHubClientWrapper where
  token : String
  rateLimitedUntil : Int
  deriving DecidableEq, Repr

/-- Outcome of the validation call `client.Users.Get(s.Context, "")` for one
token: success, a `*github.ErrorResponse` failure, or any other error
(transport failure etc.). -/
inductive ValidationResult where
  | ok
  | errorResponse (msg : String)
  | otherError (msg : String)
  deriving DecidableEq, Repr

/-- The skip test of `InitGitHubClients` (session.go lines 67-72): a token is
skipped (its `continue` is taken) iff the validation call returned an error
AND that error is a `*github.ErrorResponse`.  Any other error falls through
and the token still receives clients. -/
def tokenSkipped : ValidationResult → Bool
  | ValidationResult.errorResponse _ => true
  | _ => false

/-- One second in the `Int` nanosecond time model. -/
def oneSecondNs : Int := 1000000000

/-- The wrapper built at session.go line 75:
`&GitHubClientWrapper{client, token, time.Now().Add(-1 * time.Second)}`. -/
def newWrapper (token : String) (now : Int) : GitHubClientWrapper :=
  ⟨token, now - oneSecondNs⟩

/-- The list of wrappers the token loop of `InitGitHubClients` (session.go
lines 59-77) ATTEMPTS to enqueue, in order: for each token, validate; on a
`*github.ErrorResponse` failure skip the token; otherwise
`for i := 0; i <= Threads; i++` attempts `Threads + 1` sends of fresh
wrappers on the `Clients` channel.  This ignores the channel capacity; the
capacity-aware execution of the same loop is `seedLoop` below, and by
`seedLoop_fits` the channel ends up holding exactly this list when (and only
when) its length is at most the capacity — otherwise the program's seeding
blocks forever at the capacity boundary. -/
def initLoop (tokens : List String) (validate : String → ValidationResult)
    (threads : Nat) (now : Int) : List GitHubClientWrapper :=
  match tokens with
  | [] => []
  | t :: rest =>
    if tokenSkipped (validate t) then initLoop rest validate threads now
    else List.replicate (threads + 1) (newWrapper t now) ++ initLoop rest validate threads now

/-- A sequence of sends on a buffered channel of capacity `cap` currently
buffering `queue`, performed by a single goroutine with no concurrent
receiver (the state of the seeding loop: workers start only after `Start`
returns): each send succeeds while the buffer is below capacity; a send on a
full buffer blocks forever.  Returns the buffer contents after the sends and
whether a send blocked. -/
def sendSeq (cap : Nat) (queue : List GitHubClientWrapper) :
    List GitHubClientWrapper → List GitHubClientWrapper × Bool
  | [] => (queue, false)
  | w :: rest =>
    if queue.length < cap then sendSeq cap (queue ++ [w]) rest
    else (queue, true)

/-- Result of running the seeding loop against a bounded channel: the
channel contents when the loop finished or blocked, the tokens a validation
call was issued for (in order), and whether some send blocked forever. -/
structure SeedResult where
  queue : List GitHubClientWrapper
  calls : List String
  blocked : Bool
  deriving DecidableEq, Repr

/-- The capacity-aware execution of the token loop of `InitGitHubClients`
(session.go lines 59-77): for each token, issue the validation call; on a
`*github.ErrorResponse` failure skip the token; otherwise perform the
`Threads + 1` channel sends via `sendSeq`.  If a send blocks, the loop (and
the whole initialization) never proceeds: later tokens are neither validated
nor enqueued. -/
def seedLoop (cap threads : Nat) (validate : String → ValidationResult)
    (now : Int) (queue : List GitHubClientWrapper) :
    List String → SeedResult
  | [] => ⟨queue, [], false⟩
  | t :: rest =>
    if tokenSkipped (validate t) then
      let r := seedLoop cap threads validate now queue rest
      ⟨r.queue, t :: r.calls, r.blocked⟩
    else
      let sent := sendSeq cap queue (List.replicate (threads + 1) (newWrapper t now))
      if sent.2 then ⟨sent.1, [t], true⟩
      else
        let r := seedLoop cap threads validate now sent.1 rest
        ⟨r.queue, t :: r.calls, r.blocked⟩

/-- Channel capacity from session.go line 56:
`chanSize := *s.Options.Threads * (len(s.Config.GitHubAccessTokens) + 1)`.
Note the factor is the TOTAL number of configured tokens, not the number of
valid ones. -/
def chanSize (threads tokenCount : Nat) : Nat := threads * (tokenCount + 1)

/-- Number of tokens whose validation call succeeded (returned no error). -/
def validCount (tokens : List String) (validate : String → ValidationResult) : Nat :=
  (tokens.filter (fun t => decide (validate t = ValidationResult.ok))).length

/-- Number of tokens that are not skipped by the loop, i.e. those whose
validation call succeeded or failed with an error that is not a
`*github.ErrorResponse`.  These are exactly the tokens that receive
wrappers. -/
def usedCount (tokens : List String) (validate : String → ValidationResult) : Nat :=
  (tokens.filter (fun t => !tokenSkipped (validate t))).length

/-- A batch of `n` sends into a freshly created buffered channel of capacity
`cap`, performed by the single initializing goroutine with no concurrent
receiver, completes without blocking iff `n ≤ cap` (Go semantics: a send on a
buffered channel blocks while the buffer is full). -/
def seedingFits (n cap : Nat) : Prop := n ≤ cap

/-- The slice of the `Session` state touched or read by `InitGitHubClients`,
plus two fields it does not touch (`signatures`, `csvPath`) so that frame
properties are expressible.  `clients = none` models a nil (never created)
channel; `clients = some l` models a created channel buffering `l`. -/
structure SessionState where
  optionsLocal : String
  optionsThreads : Nat
  configTokens : List String
  clients : Option (List GitHubClientWrapper)
  exhaustedClients : Option (List GitHubClientWrapper)
  signatures : List String
  csvPath : String
  deriving DecidableEq, Repr

/-- Whether `InitGitHubClients` ran to completion, hit `s.Log.Fatal` (which
terminates the process), or hung forever on a channel send whose buffer was
full (no other goroutine receives during initialization). -/
inductive InitEffect where
  | completed
  | fatal (msg : String)
  | hung
  deriving DecidableEq, Repr

/-- The fatal message of session.go line 80. -/
def fatalTokensMsg : String := "No valid GitHub tokens provided. Quitting!"

/-- Everything observable about one run of `InitGitHubClients`: the session
state afterwards, whether the process was terminated, which tokens a remote
validation call was issued for, and the capacities the two channels were
created with (0 when they were never created). -/
structure InitOutcome where
  state : SessionState
  effect : InitEffect
  validationCalls : List String
  clientsCap : Nat
  exhaustedCap : Nat
  deriving DecidableEq, Repr

/-- `Session.InitGitHubClients` (session.go lines 54-83).  When the local
flag is empty it creates both channels with capacity
`Threads * (len(tokens) + 1)` and runs the seeding loop (`seedLoop`) against
the bounded `Clients` channel.  If some seeding send blocked, control never
returns (`InitEffect.hung`): the fatal check at lines 79-81 is not reached.
Otherwise `Fatal` fires iff the channel ended up empty.  When the local flag
is non-empty the whole body is skipped. -/
def InitGitHubClients (s : SessionState) (validate : String → ValidationResult)
    (now : Int) : InitOutcome :=
  if s.optionsLocal.length ≤ 0 then
    let cap := chanSize s.optionsThreads s.configTokens.length
    let seeded := seedLoop cap s.optionsThreads validate now [] s.configTokens
    let s2 := { s with clients := some seeded.queue, exhaustedClients := some [] }
    if seeded.blocked then
      ⟨s2, InitEffect.hung, seeded.calls, cap, cap⟩
    else if seeded.queue.length < 1 then
      ⟨s2, InitEffect.fatal fatalTokensMsg, seeded.calls, cap, cap⟩
    else
      ⟨s2, InitEffect.completed, seeded.calls, cap, cap⟩
  else
    ⟨s, InitEffect.completed, [], 0, 0⟩

/-- The two channels of the pool: `Clients` (ready) and `ExhaustedClients`,
each modelled by its buffered contents in order. -/
structure PoolState where
  ready : List GitHubClientWrapper
  exhausted : List GitHubClientWrapper
  deriving DecidableEq, Repr

/-- `Session.FreeClient` (session.go lines 110-116), with the call to
`time.Now()` made explicit as `now`: if `client.RateLimitedUntil.After(now)`
(strictly after), send the client on `ExhaustedClients`, else on
`Clients`. -/
def FreeClient (st : PoolState) (client : GitHubClientWrapper) (now : Int) : PoolState :=
  if now < client.rateLimitedUntil then
    { st with exhausted := st.exhausted ++ [client] }
  else
    { st with ready := st.ready ++ [client] }

/-- One iteration of the `select` loop of `Session.GetClient` (session.go
lines 85-106), as a step relation `GetClientStep st now out st2`: from pool
state `st` at time `now`, one poll cycle yields output `out` (`some c` when
the iteration returns client `c`, `none` when it loops) and pool state `st2`.

Go `select` semantics: when several cases are runnable one is chosen by a
uniform pseudo-random selection, so when BOTH channels are non-empty both
receive cases are possible steps; the `default` case runs only when neither
receive can proceed.  In the exhausted case the goroutine sleeps until
`RateLimitedUntil` (or not at all if that is already past), so `FreeClient`
runs at some time `now2` with `max now c.rateLimitedUntil ≤ now2`. -/
inductive GetClientStep :
    PoolState → Int → Option GitHubClientWrapper → PoolState → Prop where
  | takeReady (c : GitHubClientWrapper) (rest ex : List GitHubClientWrapper) (now : Int) :
      GetClientStep ⟨c :: rest, ex⟩ now (some c) ⟨rest, ex⟩
  | takeExhausted (rd : List GitHubClientWrapper) (c : GitHubClientWrapper)
      (rest : List GitHubClientWrapper) (now now2 : Int)
      (hsleep : max now c.rateLimitedUntil ≤ now2) :
      GetClientStep ⟨rd, c :: rest⟩ now none (FreeClient ⟨rd, rest⟩ c now2)
  | defaultWait (now : Int) :
      GetClientStep ⟨[], []⟩ now none ⟨[], []⟩

/-- Whole-system state for the handle-conservation analysis: the two channel
buffers plus the multiset of handles currently on loan (between a `GetClient`
return and the matching `FreeClient` call). -/
structure SysState where
  ready : List GitHubClientWrapper
  exhausted : List GitHubClientWrapper
  loaned : Multiset GitHubClientWrapper
  deriving DecidableEq

/-- The transitions any worker can perform on the shared pool:
- `acquireReady`: a `GetClient` poll cycle receives from `Clients` and
  returns the client to its caller (it becomes loaned);
- `acquireExhausted`: a `GetClient` poll cycle receives from
  `ExhaustedClients`, sleeps until the client is usable, and hands it to
  `FreeClient` at the post-sleep time `now2`;
- `acquireDefault`: a `GetClient` poll cycle finds both channels empty,
  logs occupancy and sleeps one second (no state change);
- `release`: a caller holding a loaned client calls `FreeClient` on it. -/
inductive SysStep : SysState → SysState → Prop where
  | acquireReady (c : GitHubClientWrapper) (rest ex : List GitHubClientWrapper)
      (ln : Multiset GitHubClientWrapper) :
      SysStep ⟨c :: rest, ex, ln⟩ ⟨rest, ex, c ::ₘ ln⟩
  | acquireExhausted (rd : List GitHubClientWrapper) (c : GitHubClientWrapper)
      (rest : List GitHubClientWrapper) (ln : Multiset GitHubClientWrapper)
      (now now2 : Int) (hsleep : max now c.rateLimitedUntil ≤ now2) :
      SysStep ⟨rd, c :: rest, ln⟩
        ⟨(FreeClient ⟨rd, rest⟩ c now2).ready, (FreeClient ⟨rd, rest⟩ c now2).exhausted, ln⟩
  | acquireDefault (ln : Multiset GitHubClientWrapper) :
      SysStep ⟨[], [], ln⟩ ⟨[], [], ln⟩
  | release (rd ex : List GitHubClientWrapper) (c : GitHubClientWrapper)
      (ln : Multiset GitHubClientWrapper) (now : Int) :
      SysStep ⟨rd, ex, c ::ₘ ln⟩
        ⟨(FreeClient ⟨rd, ex⟩ c now).ready, (FreeClient ⟨rd, ex⟩ c now).exhausted, ln⟩

/-- The multiset of all handles in existence in a system state. -/
def allHandles (st : SysState) : Multiset GitHubClientWrapper :=
  (st.ready : Multiset GitHubClientWrapper) + (st.exhausted : Multiset GitHubClientWrapper)
    + st.loaned

/-- The system state right after `InitGitHubClients` seeded the pool:
everything the token loop produced is in `Clients`, nothing is exhausted,
nothing is on loan. -/
def initSysState (tokens : List String) (validate : String → ValidationResult)
    (threads : Nat) (now : Int) : SysState :=
  ⟨initLoop tokens validate threads now, [], 0⟩

/-- Go string slicing `token[:10]` as used in the log calls of session.go
lines 69, 90 and 97 (tokens are ASCII, so bytes = characters): `none` models
the runtime panic `slice bounds out of range` raised when the token is
shorter than 10 bytes, `some p` the 10-byte slice. -/
def tokenShown (t : String) : Option (List Char) :=
  if t.toList.length < 10 then none
  else some (t.toList.take 10)

/-- The log line of session.go line 69:
`s.Log.Warn("Failed to validate token %s[..]: %s", token[:10], err)`.
`none` models the panic of the slice expression. -/
def warnValidateLine (t errMsg : String) : Option String :=
  (tokenShown t).map
    (fun p => "Failed to validate token " ++ String.mk p ++ "[..]: " ++ errMsg)

/-- The log line of session.go line 90:
`s.Log.Debug("Using client with token: %s", client.Token[:10])`. -/
def debugUsingLine (t : String) : Option String :=
  (tokenShown t).map (fun p => "Using client with token: " ++ String.mk p)

/-- The log line of session.go line 97:
`s.Log.Debug("Returning client %s to pool", client.Token[:10])`. -/
def debugReturnLine (t : String) : Option String :=
  (tokenShown t).map (fun p => "Returning client " ++ String.mk p ++ " to pool")

/-- The log line of session.go line 95; it mentions no token at all. -/
def warnExhaustedLine (sleepStr : String) : String :=
  "All GitHub tokens exhausted/rate limited. Sleeping for " ++ sleepStr

/-- Concrete 10-character-token wrapper used in counterexamples. -/
def exW1 : GitHubClientWrapper := ⟨"tokenAAAAA", 0⟩

/-- Concrete rate-limited wrapper used in counterexamples. -/
def exW2 : GitHubClientWrapper := ⟨"tokenBBBBB", 100⟩

/-- Concrete session used to instantiate hypotheses of the claim theorems. -/
def exSession : SessionState :=
  { optionsLocal := ""
    optionsThreads := 1
    configTokens := ["tokenAAAAA"]
    clients := none
    exhaustedClients := none
    signatures := ["sig"]
    csvPath := "out.csv" }

/-- Concrete session with two configured tokens and one worker, exhibiting
the capacity shortfall of claim C1. -/
def exSessionTwoTokens : SessionState :=
  { exSession with configTokens := ["tokenAAAAA", "tokenBBBBB"] }

/-- Concrete session with three configured tokens and one worker: capacity
1 * (3 + 1) = 4 is filled by the first two valid tokens, so the first send
for the third token blocks. -/
def exSessionThreeTokens : SessionState :=
  { exSession with configTokens := ["tokenAAAAA", "tokenBBBBB", "tokenCCCCC"] }

/-- Concrete session with the local flag set. -/
def exLocalSession : SessionState :=
  { exSession with optionsLocal := "path" }

/-- Validation oracle that accepts every token. -/
def allOk : String → ValidationResult := fun _ => ValidationResult.ok

/-- Validation oracle whose calls all fail with a transport error (not a
`*github.ErrorResponse`). -/
def allOtherError : String → ValidationResult :=
  fun _ => ValidationResult.otherError "net timeout"

theorem initLoop_length (tokens : List String) (validate : String → ValidationResult)
    (threads : Nat) (now : Int) :
    (initLoop tokens validate threads now).length
      = usedCount tokens validate * (threads + 1) := by
  induction tokens with
  | nil => simp [initLoop, usedCount]
  | cons t rest ih =>
    by_cases h : tokenSkipped (validate t)
    · simp [initLoop, usedCount, h, List.filter_cons] at ih ⊢
      exact ih
    · simp [initLoop, usedCount, h, List.filter_cons, List.length_append,
        List.length_replicate] at ih ⊢
      rw [ih]
      ring

theorem initLoop_rateLimitedUntil (tokens : List String)
    (validate : String → ValidationResult) (threads : Nat) (now : Int)
    (w : GitHubClientWrapper) (hw : w ∈ initLoop tokens validate threads now) :
    w.rateLimitedUntil = now - oneSecondNs := by
  induction tokens with
  | nil => simp [initLoop] at hw
  | cons t rest ih =>
    simp only [initLoop] at hw
    split at hw
    · exact ih hw
    · rcases List.mem_append.1 hw with h1 | h2
      · rw [List.eq_of_mem_replicate h1]
        rfl
      · exact ih h2

theorem initLoop_not_skipped (tokens : List String)
    (validate : String → ValidationResult) (threads : Nat) (now : Int)
    (w : GitHubClientWrapper) (hw : w ∈ initLoop tokens validate threads now) :
    tokenSkipped (validate w.token) = false := by
  induction tokens with
  | nil => simp [initLoop] at hw
  | cons t rest ih =>
    simp only [initLoop] at hw
    by_cases h : tokenSkipped (validate t)
    · rw [if_pos h] at hw
      exact ih hw
    · rw [if_neg h] at hw
      rcases List.mem_append.1 hw with h1 | h2
      · rw [List.eq_of_mem_replicate h1]
        simpa using h
      · exact ih h2

theorem initLoop_mem_of_not_skipped (tokens : List String)
    (validate : String → ValidationResult) (threads : Nat) (now : Int)
    (t : String) (ht : t ∈ tokens) (h : tokenSkipped (validate t) = false) :
    ∃ w ∈ initLoop tokens validate threads now, w.token = t := by
  induction tokens with
  | nil => simp at ht
  | cons t0 rest ih =>
    rcases List.mem_cons.1 ht with rfl | hmem
    · refine ⟨newWrapper t now, ?_, rfl⟩
      have heq : initLoop (t :: rest) validate threads now
          = List.replicate (threads + 1) (newWrapper t now)
            ++ initLoop rest validate threads now := by
        simp [initLoop, h]
      rw [heq]
      exact List.mem_append.2 (Or.inl (List.mem_replicate.2 ⟨by omega, rfl⟩))
    · rcases ih hmem with ⟨w, hw, hwt⟩
      refine ⟨w, ?_, hwt⟩
      simp only [initLoop]
      split
      · exact hw
      · exact List.mem_append.2 (Or.inr hw)

theorem freeClient_allHandles (rd ex : List GitHubClientWrapper)
    (ln : Multiset GitHubClientWrapper) (c : GitHubClientWrapper) (now : Int) :
    ((FreeClient ⟨rd, ex⟩ c now).ready : Multiset GitHubClientWrapper)
      + ((FreeClient ⟨rd, ex⟩ c now).exhausted : Multiset GitHubClientWrapper) + ln
      = (rd : Multiset GitHubClientWrapper) + (ex : Multiset GitHubClientWrapper)
        + (c ::ₘ ln) := by
  unfold FreeClient
  split
  · simp only [← Multiset.coe_add, Multiset.coe_singleton]
    rw [← Multiset.singleton_add c ln]
    abel
  · simp only [← Multiset.coe_add, Multiset.coe_singleton]
    rw [← Multiset.singleton_add c ln]
    abel

theorem sysStep_allHandles {s s2 : SysState} (h : SysStep s s2) :
    allHandles s2 = allHandles s := by
  cases h with
  | acquireReady c rest ex ln =>
    simp only [allHandles, ← Multiset.cons_coe, ← Multiset.singleton_add]
    abel
  | acquireExhausted rd c rest ln now now2 hsleep =>
    simp only [allHandles]
    rw [freeClient_allHandles]
    simp only [← Multiset.cons_coe, ← Multiset.singleton_add]
    abel
  | acquireDefault ln => rfl
  | release rd ex c ln now =>
    simp only [allHandles]
    rw [freeClient_allHandles]

theorem sendSeq_fits (cap : Nat) (items : List GitHubClientWrapper) :
    ∀ queue : List GitHubClientWrapper, queue.length + items.length ≤ cap →
    sendSeq cap queue items = (queue ++ items, false) := by
  induction items with
  | nil =>
    intro queue h
    simp [sendSeq]
  | cons w rest ih =>
    intro queue h
    have hlt : queue.length < cap := by
      simp only [List.length_cons] at h
      omega
    have h2 : (queue ++ [w]).length + rest.length ≤ cap := by
      simp only [List.length_append, List.length_cons, List.length_nil] at h ⊢
      omega
    simp only [sendSeq, if_pos hlt, ih (queue ++ [w]) h2, List.append_assoc,
      List.singleton_append]

theorem seedLoop_fits (cap threads : Nat) (validate : String → ValidationResult)
    (now : Int) (tokens : List String) :
    ∀ queue : List GitHubClientWrapper,
    queue.length + (initLoop tokens validate threads now).length ≤ cap →
    seedLoop cap threads validate now queue tokens
      = ⟨queue ++ initLoop tokens validate threads now, tokens, false⟩ := by
  induction tokens with
  | nil =>
    intro queue h
    simp [seedLoop, initLoop]
  | cons t rest ih =>
    intro queue h
    by_cases hs : tokenSkipped (validate t)
    · have hlen : queue.length + (initLoop rest validate threads now).length ≤ cap := by
        simpa [initLoop, hs] using h
      simp [seedLoop, hs, ih queue hlen, initLoop]
    · have hlen0 : queue.length
          + ((threads + 1) + (initLoop rest validate threads now).length) ≤ cap := by
        simpa [initLoop, hs, List.length_append, List.length_replicate] using h
      have hsend : sendSeq cap queue (List.replicate (threads + 1) (newWrapper t now))
          = (queue ++ List.replicate (threads + 1) (newWrapper t now), false) := by
        apply sendSeq_fits
        simp only [List.length_replicate]
        omega
      have h2 : (queue ++ List.replicate (threads + 1) (newWrapper t now)).length
          + (initLoop rest validate threads now).length ≤ cap := by
        simp only [List.length_append, List.length_replicate]
        omega
      have hr := ih _ h2
      simp [seedLoop, hs, hsend, hr, initLoop, List.append_assoc]

theorem initGitHubClients_seeded (s : SessionState)
    (validate : String → ValidationResult) (now : Int)
    (hlocal : s.optionsLocal.length ≤ 0)
    (hfit : (initLoop s.configTokens validate s.optionsThreads now).length
      ≤ chanSize s.optionsThreads s.configTokens.length) :
    InitGitHubClients s validate now =
      ⟨{ s with
          clients := some (initLoop s.configTokens validate s.optionsThreads now)
          exhaustedClients := some [] },
        if (initLoop s.configTokens validate s.optionsThreads now).length < 1
          then InitEffect.fatal fatalTokensMsg else InitEffect.completed,
        s.configTokens,
        chanSize s.optionsThreads s.configTokens.length,
        chanSize s.optionsThreads s.configTokens.length⟩ := by
  have hseed := seedLoop_fits (chanSize s.optionsThreads s.configTokens.length)
    s.optionsThreads validate now s.configTokens [] (by simpa using hfit)
  unfold InitGitHubClients
  rw [if_pos hlocal]
  simp only [hseed, List.nil_append]
  by_cases h : (initLoop s.configTokens validate s.optionsThreads now).length < 1
  · simp [h]
  · simp [h]

/-- C5: `FreeClient` sends the handle on `ExhaustedClients` iff its
`RateLimitedUntil` is strictly after the release time, otherwise on
`Clients`; in either case exactly one handle is appended to exactly one
queue and the other queue is untouched, so no handle is dropped or
duplicated. -/
theorem C5_release_policy (st : PoolState) (c : GitHubClientWrapper) (now : Int) :
    ((FreeClient st c now).exhausted = st.exhausted ++ [c]
        ∧ (FreeClient st c now).ready = st.ready ↔ now < c.rateLimitedUntil) ∧
    ((FreeClient st c now).ready = st.ready ++ [c]
        ∧ (FreeClient st c now).exhausted = st.exhausted ↔ ¬ now < c.rateLimitedUntil) ∧
    (FreeClient st c now).ready.length + (FreeClient st c now).exhausted.length
      = st.ready.length + st.exhausted.length + 1 := by
  unfold FreeClient
  by_cases h : now < c.rateLimitedUntil
  · simp [h]
    omega
  · simp [h]
    omega

/-- C6 counterexample: with one worker and two valid tokens (capacity 3),
seeding puts three wrappers into the channel — so handles WERE created — and
then hangs forever on the fourth send: `Fatal` is never reached AND
initialization never succeeds, refuting the claim that at least one created
handle implies initialization succeeds without terminating. -/
theorem C6_counterexample :
    (InitGitHubClients exSessionTwoTokens allOk 0).state.clients
      = some [newWrapper "tokenAAAAA" 0, newWrapper "tokenAAAAA" 0,
          newWrapper "tokenBBBBB" 0] ∧
    (InitGitHubClients exSessionTwoTokens allOk 0).effect = InitEffect.hung ∧
    InitEffect.hung ≠ InitEffect.completed ∧
    InitEffect.hung ≠ InitEffect.fatal fatalTokensMsg := by
  refine ⟨by decide, by decide, by decide, by decide⟩

/-- C6 (amended): with the local flag empty, PROVIDED the seeding batch fits
within the channel capacity, `InitGitHubClients` calls `Fatal` (terminating
the process with one message) exactly when the seeding loop put zero
wrappers into the pool, completes normally whenever at least one wrapper was
created, and never hangs.  When the batch exceeds the capacity,
initialization instead blocks forever on a channel send (see the
counterexample). -/
theorem C6_zero_handles_fatal (s : SessionState)
    (validate : String → ValidationResult) (now : Int)
    (hlocal : s.optionsLocal = "")
    (hfit : (initLoop s.configTokens validate s.optionsThreads now).length
      ≤ chanSize s.optionsThreads s.configTokens.length) :
    ((InitGitHubClients s validate now).effect = InitEffect.fatal fatalTokensMsg
       ↔ initLoop s.configTokens validate s.optionsThreads now = []) ∧
    (initLoop s.configTokens validate s.optionsThreads now ≠ []
       → (InitGitHubClients s validate now).effect = InitEffect.completed) ∧
    (InitGitHubClients s validate now).effect ≠ InitEffect.hung := by
  have hc : s.optionsLocal.length ≤ 0 := by rw [hlocal]; exact Nat.le_refl 0
  rw [initGitHubClients_seeded s validate now hc hfit]
  by_cases h : initLoop s.configTokens validate s.optionsThreads now = []
  · rw [if_pos (by simp [h])]
    simp [h]
  · rw [if_neg (by simp [Nat.lt_one_iff, List.length_eq_zero, h])]
    simp [h]

/-- Witness for C6: one valid token, all validation calls succeed, the
seeding fits, the fatal path is not taken. -/
theorem C6_zero_handles_fatal_witness :
    ((InitGitHubClients exSession allOk 0).effect = InitEffect.fatal fatalTokensMsg
       ↔ initLoop exSession.configTokens allOk exSession.optionsThreads 0 = []) ∧
    (initLoop exSession.configTokens allOk exSession.optionsThreads 0 ≠ []
       → (InitGitHubClients exSession allOk 0).effect = InitEffect.completed) ∧
    (InitGitHubClients exSession allOk 0).effect ≠ InitEffect.hung :=
  C6_zero_handles_fatal exSession allOk 0 rfl (by decide)

/-- C8: when the local flag is non-empty, `InitGitHubClients` changes no
session state at all (in particular neither channel is constructed), issues
no validation call, never reaches `Fatal`, and creates no channel
capacity. -/
theorem C8_local_mode (s : SessionState) (validate : String → ValidationResult)
    (now : Int) (h : s.optionsLocal.length ≠ 0) :
    (InitGitHubClients s validate now).state = s ∧
    (InitGitHubClients s validate now).validationCalls = [] ∧
    (InitGitHubClients s validate now).effect = InitEffect.completed ∧
    (InitGitHubClients s validate now).clientsCap = 0 ∧
    (InitGitHubClients s validate now).exhaustedCap = 0 := by
  unfold InitGitHubClients
  rw [if_neg (by omega)]
  exact ⟨rfl, rfl, rfl, rfl, rfl⟩

/-- Witness for C8: a session with the local flag set to a non-empty path. -/
theorem C8_local_mode_witness :
    (InitGitHubClients exLocalSession allOk 0).state = exLocalSession ∧
    (InitGitHubClients exLocalSession allOk 0).validationCalls = [] ∧
    (InitGitHubClients exLocalSession allOk 0).effect = InitEffect.completed ∧
    (InitGitHubClients exLocalSession allOk 0).clientsCap = 0 ∧
    (InitGitHubClients exLocalSession allOk 0).exhaustedCap = 0 :=
  C8_local_mode exLocalSession allOk 0 (by decide)

theorem reachable_allHandles (tokens : List String)
    (validate : String → ValidationResult) (threads : Nat) (now : Int)
    (s : SysState)
    (h : Relation.ReflTransGen SysStep (initSysState tokens validate threads now) s) :
    allHandles s
      = (initLoop tokens validate threads now : Multiset GitHubClientWrapper) := by
  have key : allHandles s = allHandles (initSysState tokens validate threads now) := by
    induction h with
    | refl => rfl
    | tail h1 h2 ih =>
      rw [sysStep_allHandles h2]
      exact ih
  rw [key]
  simp [allHandles, initSysState]

/-- C7: handle conservation.  Starting from a freshly seeded pool, along
every interleaving of acquire and release steps the multiset of all handles
(ready + exhausted + on loan) is exactly the seeded multiset — no step
creates, duplicates or destroys a handle — and its size stays
`usedCount * (threads + 1)`. -/
theorem C7_conservation (tokens : List String) (validate : String → ValidationResult)
    (threads : Nat) (now : Int) (s : SysState)
    (h : Relation.ReflTransGen SysStep (initSysState tokens validate threads now) s) :
    allHandles s
      = (initLoop tokens validate threads now : Multiset GitHubClientWrapper) ∧
    Multiset.card (allHandles s) = usedCount tokens validate * (threads + 1) := by
  have key := reachable_allHandles tokens validate threads now s h
  constructor
  · exact key
  · rw [key, Multiset.coe_card, initLoop_length]

/-- Witness for C7: a one-token pool with the empty trace. -/
theorem C7_conservation_witness :
    allHandles (initSysState ["tokenAAAAA"] allOk 1 0)
      = (initLoop ["tokenAAAAA"] allOk 1 0 : Multiset GitHubClientWrapper) ∧
    Multiset.card (allHandles (initSysState ["tokenAAAAA"] allOk 1 0))
      = usedCount ["tokenAAAAA"] allOk * (1 + 1) :=
  C7_conservation ["tokenAAAAA"] allOk 1 0 _ Relation.ReflTransGen.refl

/-- C4 (amended): with the local flag empty, at least one non-skipped token,
and PROVIDED the seeding batch fits within the channel capacity,
`InitGitHubClients` completes with the `Clients` channel holding exactly the
wrappers of the seeding loop — `usedCount * (threads + 1)` of them, where
`usedCount` counts the tokens NOT skipped (validation succeeded or failed
with an error other than a `*github.ErrorResponse`) — each with
`RateLimitedUntil` strictly before `now`, and the `ExhaustedClients` channel
empty.  Without the capacity proviso seeding can block before placing all
handles (see the counterexample). -/
theorem C4_pool_seeding (s : SessionState) (validate : String → ValidationResult)
    (now : Int) (hlocal : s.optionsLocal = "")
    (hn : usedCount s.configTokens validate ≠ 0)
    (hfit : usedCount s.configTokens validate * (s.optionsThreads + 1)
      ≤ chanSize s.optionsThreads s.configTokens.length) :
    (InitGitHubClients s validate now).state.clients
      = some (initLoop s.configTokens validate s.optionsThreads now) ∧
    (InitGitHubClients s validate now).state.exhaustedClients = some [] ∧
    (InitGitHubClients s validate now).effect = InitEffect.completed ∧
    (initLoop s.configTokens validate s.optionsThreads now).length
      = usedCount s.configTokens validate * (s.optionsThreads + 1) ∧
    ∀ w ∈ initLoop s.configTokens validate s.optionsThreads now,
      w.rateLimitedUntil < now := by
  have hc : s.optionsLocal.length ≤ 0 := by rw [hlocal]; exact Nat.le_refl 0
  have hlen := initLoop_length s.configTokens validate s.optionsThreads now
  have hne : ¬ (initLoop s.configTokens validate s.optionsThreads now).length < 1 := by
    rw [hlen]
    have h1 : 0 < usedCount s.configTokens validate := Nat.pos_of_ne_zero hn
    have h2 : 0 < usedCount s.configTokens validate * (s.optionsThreads + 1) :=
      Nat.mul_pos h1 (Nat.succ_pos _)
    omega
  rw [initGitHubClients_seeded s validate now hc (by rw [hlen]; exact hfit), if_neg hne]
  refine ⟨rfl, rfl, rfl, hlen, ?_⟩
  intro w hw
  rw [initLoop_rateLimitedUntil s.configTokens validate s.optionsThreads now w hw]
  unfold oneSecondNs
  omega

/-- Witness for C4 at a concrete session with one valid token. -/
theorem C4_pool_seeding_witness :
    (InitGitHubClients exSession allOk 0).state.clients
      = some (initLoop exSession.configTokens allOk exSession.optionsThreads 0) ∧
    (InitGitHubClients exSession allOk 0).state.exhaustedClients = some [] ∧
    (InitGitHubClients exSession allOk 0).effect = InitEffect.completed ∧
    (initLoop exSession.configTokens allOk exSession.optionsThreads 0).length
      = usedCount exSession.configTokens allOk * (exSession.optionsThreads + 1) ∧
    ∀ w ∈ initLoop exSession.configTokens allOk exSession.optionsThreads 0,
      w.rateLimitedUntil < 0 :=
  C4_pool_seeding exSession allOk 0 rfl (by decide) (by decide)

/-- C4 counterexample, two independent failures of the original claim:
(a) a single credential whose validation call fails with a transport error
means zero credentials validate, yet the loop still constructs
`threads + 1 = 2` wrappers, so the pool size is not
`validCount * (threads + 1) = 0`; and (b) with one worker and two valid
tokens the seeding hangs on the fourth send into the capacity-3 channel, so
initialization never completes and only 3 of the 4 handles are placed in the
ready queue. -/
theorem C4_counterexample :
    validCount ["tokenAAAAA"] allOtherError = 0 ∧
    (initLoop ["tokenAAAAA"] allOtherError 1 0).length = 2 ∧
    (InitGitHubClients exSessionTwoTokens allOk 0).effect = InitEffect.hung ∧
    (InitGitHubClients exSessionTwoTokens allOk 0).state.clients
      = some [newWrapper "tokenAAAAA" 0, newWrapper "tokenAAAAA" 0,
          newWrapper "tokenBBBBB" 0] := by
  refine ⟨by decide, by decide, by decide, by decide⟩

/-- C1 (amended): both channels are created with capacity
`threads * (total tokens + 1)`, which is at least
`threads * (validCount + 1)`; and under the additional hypothesis that the
number of non-skipped tokens is at most the worker count, EVERY enqueue site
finds room: (i) the whole seeding batch fits within the channel capacity;
(ii) at every reachable system state in which a caller holds a handle on
loan, the single send performed by `FreeClient` (the Release path) fits in
whichever queue it targets; (iii) at every reachable system state with a
non-empty exhausted queue, the re-release send inside `GetClient` performed
after dequeuing the exhausted handle fits likewise.  Without the hypothesis
the seeding can exceed the capacity and block (see the counterexample). -/
theorem C1_capacity (s : SessionState) (validate : String → ValidationResult)
    (now : Int) (hlocal : s.optionsLocal = "")
    (h : usedCount s.configTokens validate ≤ s.optionsThreads) :
    (InitGitHubClients s validate now).clientsCap
      = chanSize s.optionsThreads s.configTokens.length ∧
    (InitGitHubClients s validate now).exhaustedCap
      = chanSize s.optionsThreads s.configTokens.length ∧
    s.optionsThreads * (validCount s.configTokens validate + 1)
      ≤ (InitGitHubClients s validate now).clientsCap ∧
    seedingFits (initLoop s.configTokens validate s.optionsThreads now).length
      ((InitGitHubClients s validate now).clientsCap) ∧
    (∀ (rd ex : List GitHubClientWrapper) (c : GitHubClientWrapper)
        (ln : Multiset GitHubClientWrapper),
      Relation.ReflTransGen SysStep
          (initSysState s.configTokens validate s.optionsThreads now) ⟨rd, ex, c ::ₘ ln⟩ →
        seedingFits (rd.length + 1) ((InitGitHubClients s validate now).clientsCap) ∧
        seedingFits (ex.length + 1) ((InitGitHubClients s validate now).exhaustedCap)) ∧
    (∀ (rd rest : List GitHubClientWrapper) (c : GitHubClientWrapper)
        (ln : Multiset GitHubClientWrapper),
      Relation.ReflTransGen SysStep
          (initSysState s.configTokens validate s.optionsThreads now) ⟨rd, c :: rest, ln⟩ →
        seedingFits (rd.length + 1) ((InitGitHubClients s validate now).clientsCap) ∧
        seedingFits (rest.length + 1) ((InitGitHubClients s validate now).exhaustedCap)) := by
  have hc : s.optionsLocal.length ≤ 0 := by rw [hlocal]; exact Nat.le_refl 0
  have hv : validCount s.configTokens validate ≤ s.configTokens.length :=
    List.length_filter_le _ _
  have hu : usedCount s.configTokens validate ≤ s.configTokens.length :=
    List.length_filter_le _ _
  have htotal : usedCount s.configTokens validate * (s.optionsThreads + 1)
      ≤ chanSize s.optionsThreads s.configTokens.length := by
    unfold chanSize
    have h1 : usedCount s.configTokens validate * s.optionsThreads
        ≤ s.configTokens.length * s.optionsThreads :=
      Nat.mul_le_mul_right _ hu
    nlinarith [h1, h]
  have hfit : (initLoop s.configTokens validate s.optionsThreads now).length
      ≤ chanSize s.optionsThreads s.configTokens.length := by
    rw [initLoop_length]
    exact htotal
  rw [initGitHubClients_seeded s validate now hc hfit]
  refine ⟨rfl, rfl, Nat.mul_le_mul_left _ (by omega), hfit, ?_, ?_⟩
  · intro rd ex c ln hreach
    have hall := reachable_allHandles s.configTokens validate s.optionsThreads now
      ⟨rd, ex, c ::ₘ ln⟩ hreach
    have hcard := congrArg Multiset.card hall
    simp only [allHandles, Multiset.card_add, Multiset.card_cons,
      Multiset.coe_card] at hcard
    rw [initLoop_length] at hcard
    have hgoal : rd.length + 1 ≤ chanSize s.optionsThreads s.configTokens.length ∧
        ex.length + 1 ≤ chanSize s.optionsThreads s.configTokens.length := by
      omega
    exact hgoal
  · intro rd rest c ln hreach
    have hall := reachable_allHandles s.configTokens validate s.optionsThreads now
      ⟨rd, c :: rest, ln⟩ hreach
    have hcard := congrArg Multiset.card hall
    simp only [allHandles, Multiset.card_add, Multiset.card_cons,
      Multiset.coe_card, List.length_cons] at hcard
    rw [initLoop_length] at hcard
    have hgoal : rd.length + 1 ≤ chanSize s.optionsThreads s.configTokens.length ∧
        rest.length + 1 ≤ chanSize s.optionsThreads s.configTokens.length := by
      omega
    exact hgoal

/-- Witness for C1 at one valid token and one worker: capacity 2 holds the
2 seeded wrappers and every reachable release/re-release send fits. -/
theorem C1_capacity_witness :
    (InitGitHubClients exSession allOk 0).clientsCap
      = chanSize exSession.optionsThreads exSession.configTokens.length ∧
    (InitGitHubClients exSession allOk 0).exhaustedCap
      = chanSize exSession.optionsThreads exSession.configTokens.length ∧
    exSession.optionsThreads * (validCount exSession.configTokens allOk + 1)
      ≤ (InitGitHubClients exSession allOk 0).clientsCap ∧
    seedingFits (initLoop exSession.configTokens allOk exSession.optionsThreads 0).length
      ((InitGitHubClients exSession allOk 0).clientsCap) ∧
    (∀ (rd ex : List GitHubClientWrapper) (c : GitHubClientWrapper)
        (ln : Multiset GitHubClientWrapper),
      Relation.ReflTransGen SysStep
          (initSysState exSession.configTokens allOk exSession.optionsThreads 0)
          ⟨rd, ex, c ::ₘ ln⟩ →
        seedingFits (rd.length + 1) ((InitGitHubClients exSession allOk 0).clientsCap) ∧
        seedingFits (ex.length + 1) ((InitGitHubClients exSession allOk 0).exhaustedCap)) ∧
    (∀ (rd rest : List GitHubClientWrapper) (c : GitHubClientWrapper)
        (ln : Multiset GitHubClientWrapper),
      Relation.ReflTransGen SysStep
          (initSysState exSession.configTokens allOk exSession.optionsThreads 0)
          ⟨rd, c :: rest, ln⟩ →
        seedingFits (rd.length + 1) ((InitGitHubClients exSession allOk 0).clientsCap) ∧
        seedingFits (rest.length + 1) ((InitGitHubClients exSession allOk 0).exhaustedCap)) :=
  C1_capacity exSession allOk 0 rfl (by decide)

/-- C1 counterexample: one worker and two tokens that both validate.  The
channels are created with capacity `1 * (2 + 1) = 3`, which equals
`threads * (validCount + 1)`, yet the seeding loop attempts
`2 * (1 + 1) = 4` sends, so the fourth seeding send finds the channel full
and blocks forever (no other goroutine is receiving during
initialization) — the claim that seeding never blocks is false. -/
theorem C1_counterexample :
    (InitGitHubClients exSessionTwoTokens allOk 0).clientsCap
      = 1 * (validCount exSessionTwoTokens.configTokens allOk + 1) ∧
    ¬ seedingFits
        (initLoop exSessionTwoTokens.configTokens allOk
          exSessionTwoTokens.optionsThreads 0).length
        ((InitGitHubClients exSessionTwoTokens allOk 0).clientsCap) ∧
    (InitGitHubClients exSessionTwoTokens allOk 0).effect = InitEffect.hung := by
  refine ⟨by decide, ?_, by decide⟩
  unfold seedingFits
  decide

/-- C2 counterexample, two failures of the original claim: (a) a credential
whose validation call fails with a transport error (`"net timeout"`, not a
`*github.ErrorResponse`) is NOT skipped — the seeding loop still constructs
two wrappers backed by it, so a handle in the pool can be backed by a
credential whose validation call returned an error; and (b) initialization
does not always continue over the remaining credentials: with one worker and
three valid tokens (capacity 4), the third token is validated but its first
send blocks forever, so the pool never receives a handle for it and the
loop never proceeds past it. -/
theorem C2_counterexample :
    allOtherError "tokenAAAAA" = ValidationResult.otherError "net timeout" ∧
    initLoop ["tokenAAAAA"] allOtherError 1 0
      = [⟨"tokenAAAAA", 0 - oneSecondNs⟩, ⟨"tokenAAAAA", 0 - oneSecondNs⟩] ∧
    (InitGitHubClients exSessionThreeTokens allOk 0).effect = InitEffect.hung ∧
    (InitGitHubClients exSessionThreeTokens allOk 0).state.clients
      = some [newWrapper "tokenAAAAA" 0, newWrapper "tokenAAAAA" 0,
          newWrapper "tokenBBBBB" 0, newWrapper "tokenBBBBB" 0] ∧
    (InitGitHubClients exSessionThreeTokens allOk 0).validationCalls
      = ["tokenAAAAA", "tokenBBBBB", "tokenCCCCC"] := by
  refine ⟨rfl, rfl, by decide, by decide, by decide⟩

/-- C2 (amended): a credential is skipped — no wrapper constructed for
it — exactly when its validation call failed with a `*github.ErrorResponse`;
and PROVIDED the seeding batch fits within the channel capacity, the pool
ends up holding exactly the attempted wrappers: none of them backed by a
skipped credential, every non-skipped credential (validation succeeded or
failed with a non-`ErrorResponse` error) represented, and every configured
credential validated — i.e. initialization continued over all of them.
Without the proviso the seeding blocks partway (see the counterexample). -/
theorem C2_skip_policy (s : SessionState) (validate : String → ValidationResult)
    (now : Int) (hlocal : s.optionsLocal = "")
    (hfit : (initLoop s.configTokens validate s.optionsThreads now).length
      ≤ chanSize s.optionsThreads s.configTokens.length) :
    (InitGitHubClients s validate now).state.clients
      = some (initLoop s.configTokens validate s.optionsThreads now) ∧
    (∀ w ∈ initLoop s.configTokens validate s.optionsThreads now,
        tokenSkipped (validate w.token) = false) ∧
    (∀ t ∈ s.configTokens, tokenSkipped (validate t) = false →
        ∃ w ∈ initLoop s.configTokens validate s.optionsThreads now, w.token = t) ∧
    (InitGitHubClients s validate now).validationCalls = s.configTokens := by
  have hc : s.optionsLocal.length ≤ 0 := by rw [hlocal]; exact Nat.le_refl 0
  rw [initGitHubClients_seeded s validate now hc hfit]
  exact ⟨rfl,
    fun w hw => initLoop_not_skipped s.configTokens validate s.optionsThreads now w hw,
    fun t ht h =>
      initLoop_mem_of_not_skipped s.configTokens validate s.optionsThreads now t ht h,
    rfl⟩

/-- Witness for C2: one worker, one credential whose validation call fails
with a transport error; the seeding fits and the credential is represented
in the pool. -/
theorem C2_skip_policy_witness :
    (InitGitHubClients exSession allOtherError 0).state.clients
      = some (initLoop exSession.configTokens allOtherError exSession.optionsThreads 0) ∧
    (∀ w ∈ initLoop exSession.configTokens allOtherError exSession.optionsThreads 0,
        tokenSkipped (allOtherError w.token) = false) ∧
    (∀ t ∈ exSession.configTokens, tokenSkipped (allOtherError t) = false →
        ∃ w ∈ initLoop exSession.configTokens allOtherError exSession.optionsThreads 0,
          w.token = t) ∧
    (InitGitHubClients exSession allOtherError 0).validationCalls
      = exSession.configTokens :=
  C2_skip_policy exSession allOtherError 0 rfl (by decide)

/-- C3 counterexample: from a pool state whose `Clients` channel is
non-empty, a `GetClient` poll cycle may nevertheless receive from
`ExhaustedClients` (Go `select` chooses uniformly at random among runnable
cases; there is no priority), so the cycle does not return the head of
`Clients`. -/
theorem C3_counterexample :
    ¬ (∀ (rd ex : List GitHubClientWrapper) (now : Int)
          (out : Option GitHubClientWrapper) (st2 : PoolState),
        rd ≠ [] → GetClientStep ⟨rd, ex⟩ now out st2 → out = rd.head?) := by
  intro hclaim
  have hstep : GetClientStep ⟨[exW1], [exW2]⟩ 0 none (FreeClient ⟨[exW1], []⟩ exW2 100) :=
    GetClientStep.takeExhausted [exW1] exW2 [] 0 100 (by decide)
  have hout := hclaim [exW1] [exW2] 0 none (FreeClient ⟨[exW1], []⟩ exW2 100)
    (by simp) hstep
  simp at hout

/-- C3 (amended): when `Clients` is non-empty and `ExhaustedClients` is
empty, every possible poll cycle dequeues the head of `Clients` and returns
it immediately; when both channels are non-empty the choice between them is
a uniformly random `select`, so no priority of ready over exhausted holds
(see the counterexample). -/
theorem C3_ready_dequeue (c : GitHubClientWrapper)
    (rest : List GitHubClientWrapper) (now : Int)
    (out : Option GitHubClientWrapper) (st2 : PoolState)
    (h : GetClientStep ⟨c :: rest, []⟩ now out st2) :
    out = some c ∧ st2 = ⟨rest, []⟩ := by
  cases h
  exact ⟨rfl, rfl⟩

/-- Witness for C3: a singleton ready queue is dequeued and returned. -/
theorem C3_ready_dequeue_witness :
    (some exW1 : Option GitHubClientWrapper) = some exW1 ∧
    (⟨[], []⟩ : PoolState) = ⟨[], []⟩ :=
  C3_ready_dequeue exW1 [] 0 (some exW1) ⟨[], []⟩
    (GetClientStep.takeReady exW1 [] [] 0)

/-- C9: every log line that mentions a token shows only its 10-character
slice, so two tokens agreeing on their first 10 characters produce identical
log output whatever their remaining characters are (the exhaustion warning
of line 95 mentions no token at all). -/
theorem C9_log_noninterference (t1 t2 errMsg : String)
    (h : t1.toList.take 10 = t2.toList.take 10) :
    warnValidateLine t1 errMsg = warnValidateLine t2 errMsg ∧
    debugUsingLine t1 = debugUsingLine t2 ∧
    debugReturnLine t1 = debugReturnLine t2 := by
  have hlen : min 10 t1.toList.length = min 10 t2.toList.length := by
    have hc := congrArg List.length h
    simpa [List.length_take] using hc
  have hshown : tokenShown t1 = tokenShown t2 := by
    unfold tokenShown
    by_cases h1 : t1.toList.length < 10
    · rw [if_pos h1, if_pos (by omega)]
    · rw [if_neg h1, if_neg (by omega), h]
  unfold warnValidateLine debugUsingLine debugReturnLine
  rw [hshown]
  exact ⟨rfl, rfl, rfl⟩

/-- Witness for C9: two tokens sharing the 10-character slice
`"tokenAAAAA"` but differing afterwards log identically. -/
theorem C9_log_noninterference_witness :
    warnValidateLine "tokenAAAAAxyz" "bad credentials"
      = warnValidateLine "tokenAAAAAqq" "bad credentials" ∧
    debugUsingLine "tokenAAAAAxyz" = debugUsingLine "tokenAAAAAqq" ∧
    debugReturnLine "tokenAAAAAxyz" = debugReturnLine "tokenAAAAAqq" :=
  C9_log_noninterference "tokenAAAAAxyz" "tokenAAAAAqq" "bad credentials" (by decide)

/-- C10: each token-logging path completes exactly when the token has at
least 10 characters; for any shorter token the slice `token[:10]` is out of
range and the operation panics (modelled by `none`) in the validation
warning, the acquire debug line, and the return debug line alike. -/
theorem C10_short_token_panics (t : String) (errMsg : String) :
    (tokenShown t = none ↔ t.toList.length < 10) ∧
    (warnValidateLine t errMsg = none ↔ t.toList.length < 10) ∧
    (debugUsingLine t = none ↔ t.toList.length < 10) ∧
    (debugReturnLine t = none ↔ t.toList.length < 10) := by
  unfold warnValidateLine debugUsingLine debugReturnLine tokenShown
  by_cases h : t.toList.length < 10
  · simp [h]
  · simp [h]
